import Mathlib

/-!
Shallow embedding of the fetch-salesforce client (src/library.js) together with
theorems settling the frozen claims about it: request retry accounting,
cursor pagination, oversized GET routing, composite batching, record
validation, session construction and URL building.
-/

set_option maxRecDepth 40000

namespace FetchSalesforce

/-- Session counters: the closure variables named requests and requestErrors in
library.js (lines 16 and 17). -/
structure Counters where
  requests : Nat
  requestErrors : Nat
deriving DecidableEq, Repr

/-- JavaScript level failure outcomes used by the client. The constructor
thrown models a thrown string literal, errorObj models throwing a new Error,
typeError and referenceError model engine raised exceptions of those kinds. -/
inductive JsErr where
  | thrown (msg : String)
  | errorObj (msg : String)
  | typeError (msg : String)
  | referenceError (msg : String)
deriving DecidableEq, Repr

instance exceptDecEq {ε α : Type} [DecidableEq ε] [DecidableEq α] :
    DecidableEq (Except ε α) := fun a b =>
  match a, b with
  | Except.error e, Except.error f =>
    if h : e = f then isTrue (by rw [h]) else isFalse (fun hh => h (Except.error.inj hh))
  | Except.ok x, Except.ok y =>
    if h : x = y then isTrue (by rw [h]) else isFalse (fun hh => h (Except.ok.inj hh))
  | Except.error _, Except.ok _ => isFalse (fun hh => Except.noConfusion hh)
  | Except.ok _, Except.error _ => isFalse (fun hh => Except.noConfusion hh)

/-- Result of one call to the request executor: final counters, total number of
fetch attempts performed, and the outcome. -/
structure ReqOut (R : Type) where
  counters : Counters
  attempts : Nat
  result : Except JsErr R
deriving DecidableEq, Repr

/-- Uppercases one ASCII character, as toUpperCase does on the ASCII method
names used by the client. -/
def upperChar (c : Char) : Char :=
  if 97 ≤ c.toNat ∧ c.toNat ≤ 122 then Char.ofNat (c.toNat - 32) else c

/-- ASCII uppercase of a string: the method.toUpperCase() call at line 69. -/
def strToUpper (s : String) : String := String.mk (s.data.map upperChar)

/-- Whether the first list occurs contiguously inside the second: used to
state that a message does or does not carry a given substring. -/
def occursIn (needle : List Char) : List Char → Bool
  | [] => needle.isEmpty
  | c :: rest => needle.isPrefixOf (c :: rest) || occursIn needle rest

/-- Embeds the function at library.js lines 46 to 72 (the request executor).
The transport maps the index of an attempt to its outcome, where none models
the fetch call or the body decoding throwing. Each attempt increments the
requests counter (line 58); each failing attempt increments the error counter
(line 63) and the executor retries while the retry argument is below 3
(lines 64 to 66). Here fuel equals 3 minus retry, so a fresh call with fuel 3
performs at most 4 attempts and then throws the string built at line 69: that
string names the uppercased method but not the action. -/
def requestGo {R : Type} (transport : Nat → Option R) (method : String) :
    Nat → Nat → Counters → ReqOut R
  | fuel, attempt, st =>
    let st1 : Counters := { st with requests := st.requests + 1 }
    match transport attempt with
    | some r => { counters := st1, attempts := attempt + 1, result := Except.ok r }
    | none =>
      let st2 : Counters := { st1 with requestErrors := st1.requestErrors + 1 }
      match fuel with
      | f + 1 => requestGo transport method f (attempt + 1) st2
      | 0 => { counters := st2, attempts := attempt + 1,
               result := Except.error (JsErr.thrown
                 ("Salesforce " ++ strToUpper method ++ " request failed!")) }

/-- A transport that throws on the first k attempts and afterwards resolves
with r. -/
def failTimes {R : Type} (k : Nat) (r : R) : Nat → Option R :=
  fun n => if n < k then none else some r

/-- Splits a character list at every occurrence of the separator c, mirroring
the JavaScript String.prototype.split with a one character separator as used at
library.js lines 29 to 31. The result is never empty, and a list without the
separator splits into the one piece equal to the whole input. -/
def splitOnChar (c : Char) : List Char → List (List Char)
  | [] => [[]]
  | x :: xs =>
    let r := splitOnChar c xs
    if x = c then [] :: r
    else
      match r with
      | [] => [[x]]
      | y :: ys => (x :: y) :: ys

/-- Uppercase hexadecimal digit of a value below 16. -/
def hexDigitU (n : Nat) : Char :=
  if n < 10 then Char.ofNat (48 + n) else Char.ofNat (55 + n)

/-- True for the characters encodeURIComponent leaves unescaped. -/
def isUnreservedURI (c : Char) : Bool :=
  (48 ≤ c.toNat && c.toNat ≤ 57) || (65 ≤ c.toNat && c.toNat ≤ 90)
    || (97 ≤ c.toNat && c.toNat ≤ 122)
    || c ∈ ['-', '_', '.', '!', '~', '*', Char.ofNat 39, '(', ')']

/-- Models encodeURIComponent on ASCII input, as applied to the query and
search strings at library.js lines 149 and 177: unreserved characters pass
through, every other character becomes a percent escape of its code. -/
def encodeURIComponent (s : String) : String :=
  String.mk ((s.data.map (fun c =>
    if isUnreservedURI c then [c]
    else ['%', hexDigitU (c.toNat / 16 % 16), hexDigitU (c.toNat % 16)])).flatten)

/-- The recognized construction options of salesforceSession
(library.js lines 8 to 12); none models an absent key, whose destructuring
default then applies. -/
structure SessionOptions where
  overrideInstanceUrl : Option String
  overrideServicesPath : Option String
  overrideVersion : Option String
deriving DecidableEq, Repr

/-- The closure state that the operations of the session object read: the
instance URL, the services base path, the API version and the credential set.
The operation models below take such a state as a parameter. -/
structure Session where
  instance_url : String
  servicesPath : String
  version : String
  oauthVars : List (String × String)
deriving DecidableEq, Repr

/-- Embeds the URL builder at library.js line 27: instance URL, then the
services path, then the letter v, the version and a slash, then the action. -/
def Session.url (s : Session) (path : String) : String :=
  s.instance_url ++ s.servicesPath ++ "v" ++ s.version ++ "/" ++ path

/-- Embeds session construction, library.js lines 8 to 35. The parameter
destructuring and the var block of lines 8 to 25 execute first, then line 29
evaluates its right hand side: the OAuth URL is split at the hash sign and the
index 1 piece is split at ampersands. When the URL has no hash sign that index
1 piece is undefined and calling split on it throws a TypeError. When a
fragment is present the right hand side evaluates to the pair array, but the
file is strict mode (the use strict directive at line 6) and the assignment
target _OAuthVarPairs is declared nowhere, so storing the value throws a
ReferenceError. Either way construction throws: lines 30 to 35 and the return
of the session object at line 132 are unreachable, and construction never
produces a session. -/
def constructSession (oauthUrl : List Char) (_opts : SessionOptions) :
    Except JsErr Session :=
  match splitOnChar '#' oauthUrl with
  | [] => Except.error (JsErr.typeError "split never returns an empty list")
  | [_] => Except.error (JsErr.typeError
      "Cannot read properties of undefined (reading split)")
  | _ :: _ :: _ => Except.error (JsErr.referenceError
      "_OAuthVarPairs is not defined")

/-- Embeds the GET helper at library.js lines 81 to 90 for a single string
action. When the built URL is longer than 2048 characters, line 87 evaluates
this.batch: the helper is an arrow function, so this is the lexically captured
top level this (the global object of the page), not the session object
returned at line 132, and this.batch is undefined; calling it therefore throws
a TypeError before any transport request is issued. (Even with a bound batch
the call is not awaited, so reading .results of the promise would fail.) The
attempts field counts the fetch attempts actually performed, and stays 0 on
that path. The array action form of lines 82 to 84 goes through the same
broken this.batch and is not modelled. -/
def getRun {R : Type} (s : Session) (transport : String → Nat → Option R)
    (action : String) (st : Counters) : ReqOut R :=
  if 2048 < (s.url action).length then
    { counters := st, attempts := 0,
      result := Except.error (JsErr.typeError "this.batch is not a function") }
  else
    requestGo (transport action) "get" 3 0 st

/-- One page of a query response: the records of the page and the optional
next page cursor. -/
structure QueryPage (R : Type) where
  records : List R
  nextRecordsUrl : Option String
deriving DecidableEq, Repr

/-- The last result field of an operation as JavaScript sees it: initially
undefined, the false sentinel after a failure, or a stored value. -/
inductive JsField (α : Type) where
  | undef
  | fls
  | val (a : α)
deriving DecidableEq, Repr

/-- Result of one query call: final counters, fetch attempts performed, the
stored records field of the session, and the outcome given to the caller. -/
structure QueryOut (R : Type) where
  counters : Counters
  attempts : Nat
  records : JsField (List R)
  result : Except JsErr (List R)
deriving DecidableEq, Repr

/-- Embeds query, library.js lines 146 to 167. The first page is fetched
through the GET helper and stored in this.records (line 154). The pagination
loop at lines 155 to 158 reads, in the initializer of its inner binding, the
expression results.nextRecordsUrl; that inner declaration of results shadows
the outer one throughout the loop body, so the initializer reads the inner
binding before its own initialization and throws a ReferenceError on the first
iteration. The catch at lines 160 to 166 then sets this.records to false and
throws the string Query failed!. Consequently a first page that carries a
cursor makes the whole call fail without ever fetching the cursor, and only a
cursor free first page resolves, with exactly that single page stored and
returned. -/
def queryRun {R : Type} (s : Session) (transport : String → Nat → Option (QueryPage R))
    (soql : String) (st : Counters) : QueryOut R :=
  let action := "query?q=" ++ encodeURIComponent soql
  let g := getRun s transport action st
  match g.result with
  | Except.error _ =>
    { counters := g.counters, attempts := g.attempts, records := JsField.fls,
      result := Except.error (JsErr.thrown "Query failed!") }
  | Except.ok page =>
    match page.nextRecordsUrl with
    | none =>
      { counters := g.counters, attempts := g.attempts,
        records := JsField.val page.records, result := Except.ok page.records }
    | some _ =>
      { counters := g.counters, attempts := g.attempts, records := JsField.fls,
        result := Except.error (JsErr.thrown "Query failed!") }

/-- A session as produced by a construction whose fragment carried a token and
an instance URL, with the default configuration. -/
def testSession : Session :=
  { instance_url := "https://test.salesforce.com", servicesPath := "/services/data/",
    version := "43.0", oauthVars := [("access_token", "T")] }

/-- The mock transport of the pagination scenario: the first page carries one
record and a cursor, the cursor page carries one record and no cursor. -/
def paginationMock : String → Nat → Option (QueryPage String) := fun action _ =>
  if action = "query?q=SELECT%20Id%20FROM%20Contact" then
    some { records := ["1"], nextRecordsUrl := some "/next" }
  else if action = "/next" then
    some { records := ["2"], nextRecordsUrl := none }
  else none

/-- One sub-request of a composite batch: either a bare relative path or an
object with a method and a url. -/
inductive SubReq where
  | bare (path : String)
  | withMethod (method url : String)
deriving DecidableEq, Repr

/-- Truthiness of the method property read at library.js line 205: a bare path
is a string, whose method property is undefined; an object with an empty
method string also has a falsy method. -/
def SubReq.methodFalsy : SubReq → Bool
  | SubReq.bare _ => true
  | SubReq.withMethod m _ => m == ""

/-- String coercion applied when a sub-request is concatenated into a url at
line 207: a bare path contributes itself, an object stringifies to the usual
object Object form. -/
def SubReq.asUrlString : SubReq → String
  | SubReq.bare p => p
  | SubReq.withMethod _ _ => "[object Object]"

/-- The in place rewriting of one entry at library.js line 207. -/
def rewriteEntry (version : String) (r : SubReq) : SubReq :=
  SubReq.withMethod "GET" ("v" ++ version ++ "/" ++ r.asUrlString)

/-- A composite batch response: its results array. -/
structure BatchResp (RES : Type) where
  results : List RES
deriving DecidableEq, Repr

/-- Result of the batch chunk loop: final counters, the chunk payloads POSTed
in order, the entries left in the caller array when the loop exits, and the
outcome (none stands for the initial false value of batchResponses, which is
replaced by the first chunk response). -/
structure BatchLoopOut (RES : Type) where
  counters : Counters
  chunksPosted : List (List SubReq)
  remainder : List SubReq
  result : Except JsErr (Option (BatchResp RES))
deriving DecidableEq, Repr

/-- Embeds the while loop of batch, library.js lines 212 to 225. Each
iteration splices the first 25 entries out of the caller array and POSTs them
through the request executor. On success, line 217 either stores the first
chunk response or evaluates batchResponses.results.concat(thisResponse.results)
as a bare statement: concat returns a fresh array and the return value is
discarded, so the accumulator keeps exactly the first chunk response; line 218
then decrements the request counter. On failure the loop throws the batch
failure string, leaving the unspliced remainder in the caller array. -/
def batchLoopF {RES : Type} (chunkTransport : List SubReq → Nat → Option (BatchResp RES)) :
    Nat → List SubReq → Option (BatchResp RES) → Counters → BatchLoopOut RES
  | _, [], acc, st =>
    { counters := st, chunksPosted := [], remainder := [], result := Except.ok acc }
  | 0, r :: rs, _, st =>
    { counters := st, chunksPosted := [], remainder := r :: rs,
      result := Except.error (JsErr.thrown "out of fuel") }
  | fuel + 1, r :: rs, acc, st =>
    let chunk := (r :: rs).take 25
    let rest := (r :: rs).drop 25
    let p := requestGo (chunkTransport chunk) "post" 3 0 st
    match p.result with
    | Except.ok resp =>
      let acc2 := match acc with
        | none => some resp
        | some a => some a
      let st2 : Counters := { p.counters with requests := p.counters.requests - 1 }
      let out := batchLoopF chunkTransport fuel rest acc2 st2
      { out with chunksPosted := chunk :: out.chunksPosted }
    | Except.error _ =>
      { counters := p.counters, chunksPosted := [chunk], remainder := rest,
        result := Except.error (JsErr.thrown "Salesforce batch request failed!") }

/-- The chunk loop started with enough fuel for the whole array: every
iteration removes at least one entry, so fuel equal to the length of the array
is never exhausted and the out of fuel branch of batchLoopF is unreachable. -/
def batchLoop {RES : Type} (chunkTransport : List SubReq → Nat → Option (BatchResp RES))
    (l : List SubReq) (acc : Option (BatchResp RES)) (st : Counters) : BatchLoopOut RES :=
  batchLoopF chunkTransport l.length l acc st

/-- Result of one batch call. -/
structure BatchOut (RES : Type) where
  counters : Counters
  chunksPosted : List (List SubReq)
  remainder : List SubReq
  result : Except JsErr (Option (BatchResp RES))
deriving DecidableEq, Repr

/-- Embeds batch, library.js lines 203 to 228. Line 205 reads
requests[0].method, which throws a TypeError when the caller array is empty.
When the first entry has a falsy method, lines 206 to 208 rewrite every entry
of the caller array in place into a GET sub-request against the versioned
path. The loop then consumes the array in chunks of 25; after a fully
successful loop line 226 adds the one logical increment to the request
counter, while a thrown chunk failure propagates without that increment. -/
def batchRun {RES : Type} (version : String)
    (chunkTransport : List SubReq → Nat → Option (BatchResp RES))
    (requests : List SubReq) (st : Counters) : BatchOut RES :=
  match requests with
  | [] =>
    { counters := st, chunksPosted := [], remainder := [],
      result := Except.error (JsErr.typeError
        "Cannot read properties of undefined (reading method)") }
  | r :: rs =>
    let reqs := if r.methodFalsy then (r :: rs).map (rewriteEntry version) else r :: rs
    let out := batchLoop chunkTransport reqs none st
    match out.result with
    | Except.ok acc =>
      { counters := { out.counters with requests := out.counters.requests + 1 },
        chunksPosted := out.chunksPosted, remainder := out.remainder,
        result := Except.ok acc }
    | Except.error e =>
      { counters := out.counters, chunksPosted := out.chunksPosted,
        remainder := out.remainder, result := Except.error e }

/-- The fragment of JavaScript values the record validation inspects: null,
undefined, booleans, strings, plain objects with named fields, and arrays. -/
inductive JsVal where
  | null
  | undef
  | boolV (b : Bool)
  | strV (s : String)
  | obj (fields : List (String × JsVal))
  | arr (elems : List JsVal)
deriving Repr

/-- JavaScript truthiness for the modelled values. -/
def jsTruthy : JsVal → Bool
  | JsVal.null => false
  | JsVal.undef => false
  | JsVal.boolV b => b
  | JsVal.strV s => !(s == "")
  | JsVal.obj _ => true
  | JsVal.arr _ => true

/-- Property access: reading a property of null or undefined throws a
TypeError (returned here as the error message); reading an absent field of an
object, or any of the inspected fields of a primitive or an array, yields
undefined. -/
def getProp : JsVal → String → Except String JsVal
  | JsVal.null, n => Except.error ("Cannot read properties of null (reading " ++ n ++ ")")
  | JsVal.undef, n => Except.error ("Cannot read properties of undefined (reading " ++ n ++ ")")
  | JsVal.obj fields, n => Except.ok ((fields.lookup n).getD JsVal.undef)
  | JsVal.boolV _, _ => Except.ok JsVal.undef
  | JsVal.strV _, _ => Except.ok JsVal.undef
  | JsVal.arr _, _ => Except.ok JsVal.undef

/-- How the validation of insert and update can fail: invalid records (the new
Error thrown at library.js line 239 resp. 273), or a TypeError raised by the
property access itself. -/
inductive ValErr where
  | invalid
  | propError (m : String)
deriving DecidableEq, Repr

/-- Embeds the shared validation prologue of insert (library.js lines 235 to
240) and update (lines 269 to 274), with the operation specific error message
applied by the caller. First the single record promotion of line 237: a truthy
input with truthy attributes and truthy attributes.type is wrapped into a one
element array. Then the check of line 239: a falsy input, or one that is not
an array, throws the invalid records error; otherwise the first element is
read, and oRecords[0].attributes throws a TypeError when that element is null
or undefined, which happens exactly for an empty array or a leading null or
undefined entry; an object first element with falsy attributes or falsy
attributes.type throws the invalid records error. On success the records array
and the type value of the first record are returned (line 240). -/
def validateCore (v : JsVal) : Except ValErr (List JsVal × JsVal) :=
  let promoted :=
    if jsTruthy v then
      match getProp v "attributes" with
      | Except.error _ => v
      | Except.ok a =>
        if jsTruthy a then
          match getProp a "type" with
          | Except.error _ => v
          | Except.ok t => if jsTruthy t then JsVal.arr [v] else v
        else v
    else v
  if jsTruthy promoted then
    match promoted with
    | JsVal.arr elems =>
      match getProp (elems.headD JsVal.undef) "attributes" with
      | Except.error m => Except.error (ValErr.propError m)
      | Except.ok a =>
        if jsTruthy a then
          match getProp a "type" with
          | Except.error m => Except.error (ValErr.propError m)
          | Except.ok t =>
            if jsTruthy t then Except.ok (elems, t) else Except.error ValErr.invalid
        else Except.error ValErr.invalid
    | _ => Except.error ValErr.invalid
  else Except.error ValErr.invalid

/-- The operation specific error of a failed validation: insert and update
differ only in the message of the new Error of line 239 resp. 273. -/
def valErrToJs (failMsg : String) : ValErr → JsErr
  | ValErr.invalid => JsErr.errorObj failMsg
  | ValErr.propError m => JsErr.typeError m

/-- Result of one insert call: the chunk payloads POSTed in order, the entries
left in the caller array afterwards, and the outcome. -/
structure InsertOut where
  callsPosted : List (List JsVal)
  remainder : List JsVal
  result : Except JsErr (List JsVal)

/-- Embeds the while loop of insert, library.js lines 249 to 253, with fuel
always instantiated to the array length (each iteration removes at least one
entry, so the fuel branch is unreachable). Each iteration splices 200 records
and POSTs them. Line 252 reads await _post(url, payload).results: member
access binds tighter than await, so this awaits the results property of the
promise object itself, which is undefined; the POST is therefore issued fire
and forget, its outcome is never observed (a rejection cannot abort the loop),
and each iteration appends the single element undefined to the accumulated
results. -/
def insertLoopF : Nat → List JsVal → InsertOut
  | _, [] => { callsPosted := [], remainder := [], result := Except.ok [] }
  | 0, r :: rs =>
    { callsPosted := [], remainder := r :: rs,
      result := Except.error (JsErr.thrown "out of fuel") }
  | fuel + 1, r :: rs =>
    let chunk := (r :: rs).take 200
    let rest := (r :: rs).drop 200
    let out := insertLoopF fuel rest
    { callsPosted := chunk :: out.callsPosted, remainder := out.remainder,
      result := match out.result with
        | Except.ok l => Except.ok (JsVal.undef :: l)
        | Except.error e => Except.error e }

/-- Embeds insert, library.js lines 235 to 262: validation, then the chunk
loop. On a validation failure no POST is issued and the caller array is left
untouched. -/
def insertRun (v : JsVal) : InsertOut :=
  match validateCore v with
  | Except.error e =>
    { callsPosted := [],
      remainder := match v with | JsVal.arr l => l | _ => [],
      result := Except.error (valErrToJs "No valid records to insert!" e) }
  | Except.ok (elems, _) => insertLoopF elems.length elems

/-- Result of one update call: final counters, chunk payloads POSTed, entries
left in the caller array, and the outcome. -/
structure UpdateOut where
  counters : Counters
  callsPosted : List (List JsVal)
  remainder : List JsVal
  result : Except JsErr (List JsVal)

/-- String coercion of the type value as it is concatenated into the failure
message at library.js line 293. -/
def jsDisplayString : JsVal → String
  | JsVal.strV s => s
  | JsVal.obj _ => "[object Object]"
  | JsVal.null => "null"
  | JsVal.undef => "undefined"
  | JsVal.boolV b => if b then "true" else "false"
  | JsVal.arr _ => ""

/-- Embeds the while loop of update, library.js lines 283 to 287, with fuel
always instantiated to the array length. Unlike insert, line 286 awaits the
POST itself, so each chunk response is appended to the accumulated results and
a chunk failure throws the update failure message of line 293, leaving the
unspliced remainder in the caller array. -/
def updateLoopF (transport : List JsVal → Nat → Option (List JsVal)) (typeStr : String) :
    Nat → List JsVal → List JsVal → Counters → UpdateOut
  | _, [], acc, st =>
    { counters := st, callsPosted := [], remainder := [], result := Except.ok acc }
  | 0, r :: rs, _, st =>
    { counters := st, callsPosted := [], remainder := r :: rs,
      result := Except.error (JsErr.thrown "out of fuel") }
  | fuel + 1, r :: rs, acc, st =>
    let chunk := (r :: rs).take 200
    let rest := (r :: rs).drop 200
    let p := requestGo (transport chunk) "post" 3 0 st
    match p.result with
    | Except.ok resp =>
      let out := updateLoopF transport typeStr fuel rest (acc ++ resp) p.counters
      { out with callsPosted := chunk :: out.callsPosted }
    | Except.error _ =>
      { counters := p.counters, callsPosted := [chunk], remainder := rest,
        result := Except.error (JsErr.thrown
          ("Salesforce " ++ typeStr ++ " update failed!")) }

/-- Embeds update, library.js lines 269 to 296: validation, then the chunk
loop. On a validation failure no POST is issued and the caller array is left
untouched. -/
def updateRun (transport : List JsVal → Nat → Option (List JsVal)) (v : JsVal)
    (st : Counters) : UpdateOut :=
  match validateCore v with
  | Except.error e =>
    { counters := st, callsPosted := [],
      remainder := match v with | JsVal.arr l => l | _ => [],
      result := Except.error (valErrToJs "No valid records to update!" e) }
  | Except.ok (elems, t) => updateLoopF transport (jsDisplayString t) elems.length elems [] st

/-- A well formed record of the given type name. -/
def mkRecord (ty : String) : JsVal :=
  JsVal.obj [("attributes", JsVal.obj [("type", JsVal.strV ty)])]

/-- The chunk transport of the C4 scenario: the first, full chunk of 25
answers with the one element results array r1, the second chunk with r2. -/
def c4transport : List SubReq → Nat → Option (BatchResp String) :=
  fun chunk _ => some { results := [if chunk.length == 25 then "r1" else "r2"] }

/-- C1: evaluation of the code at the failing input of the claim. Against the
mock whose first page carries one record and a next page cursor and whose
cursor page carries one record, query does not resolve to the concatenation of
the two pages: entering the pagination loop throws (the loop body reads the
inner shadowing binding of results inside its own initializer), the catch
stores the false sentinel in the records field and the call fails with Query
failed!, after exactly one transport attempt — the cursor is never fetched. -/
theorem query_pagination_mock_fails :
    queryRun testSession paginationMock "SELECT Id FROM Contact"
        { requests := 0, requestErrors := 0 }
      = { counters := { requests := 1, requestErrors := 0 }, attempts := 1,
          records := JsField.fls,
          result := Except.error (JsErr.thrown "Query failed!") } ∧
    (queryRun testSession paginationMock "SELECT Id FROM Contact"
        { requests := 0, requestErrors := 0 }).result ≠ Except.ok ["1", "2"] := by
  constructor <;> decide

/-- C2 counterexample: with a transport that fails exactly 3 times and then
succeeds, the logical call does succeed and the error counter does rise by 3,
but the total request counter rises by 4 — once per attempt — and 4 is not the
claimed rise of exactly 1. -/
theorem request_counter_counts_attempts :
    (requestGo (failTimes 3 ()) "get" 3 0 { requests := 0, requestErrors := 0 }).result
      = Except.ok () ∧
    (requestGo (failTimes 3 ()) "get" 3 0
      { requests := 0, requestErrors := 0 }).counters.requestErrors = 3 ∧
    (requestGo (failTimes 3 ()) "get" 3 0
      { requests := 0, requestErrors := 0 }).counters.requests = 4 ∧
    (4 : Nat) ≠ 1 := by
  refine ⟨by decide, by decide, by decide, by decide⟩

/-- C2 (amended): for every starting counter state, response r and number k of
leading transport failures up to the retry ceiling 3, the request executor
succeeds while the total request counter rises by k plus 1 — once per attempt,
not once per logical call — and the error counter rises by k, one per failing
attempt; with 3 failures then success the rises are 4 and 3. -/
theorem request_counter_per_attempt {R : Type} (r : R) (st : Counters) (k : Nat)
    (hk : k ≤ 3) :
    (requestGo (failTimes k r) "get" 3 0 st).counters.requests = st.requests + (k + 1) ∧
    (requestGo (failTimes k r) "get" 3 0 st).counters.requestErrors = st.requestErrors + k ∧
    (requestGo (failTimes k r) "get" 3 0 st).attempts = k + 1 ∧
    (requestGo (failTimes k r) "get" 3 0 st).result = Except.ok r := by
  interval_cases k <;>
    refine ⟨?_, ?_, ?_, ?_⟩ <;> simp [requestGo, failTimes]

/-- C2 witness: the amended theorem at 3 failures then success. -/
theorem request_counter_per_attempt_witness :
    (3 : Nat) ≤ 3 ∧
    (requestGo (failTimes 3 ()) "get" 3 0
      { requests := 0, requestErrors := 0 }).counters.requests = 0 + (3 + 1) :=
  ⟨by decide,
   (request_counter_per_attempt () { requests := 0, requestErrors := 0 } 3 (by decide)).1⟩

/-- C3: evaluation of the code at the failing input. For a single path GET
whose built URL exceeds 2048 characters, the transport does not observe a POST
to the composite batch endpoint — it observes nothing at all, zero attempts —
and the caller receives a TypeError: line 87 reads this.batch off the lexical
this of the arrow function, which is not the session object, so the rerouting
throws before any request; the embedded single sub-response result is never
produced. -/
theorem oversized_get_not_rerouted :
    getRun testSession (fun _ _ => some ()) (String.mk (List.replicate 2100 'a'))
        { requests := 0, requestErrors := 0 }
      = { counters := { requests := 0, requestErrors := 0 }, attempts := 0,
          result := Except.error (JsErr.typeError "this.batch is not a function") } := by
  have hlen : 2048 < (testSession.url (String.mk (List.replicate 2100 'a'))).length := by
    have h : (testSession.url (String.mk (List.replicate 2100 'a'))).length = 2148 := by
      simp only [Session.url, testSession, String.length_append, String.length_mk,
        List.length_replicate]
      decide
    rw [h]
    decide
  unfold getRun
  rw [if_pos hlen]

/-- C4: evaluation of the code at the failing input. 26 sub-requests are split
into exactly 2 chunk POSTs, the ceiling of 26 over 25, and both POSTs succeed
with one element results arrays; but the returned aggregate keeps only the
first chunk results array — line 217 discards the return value of concat — so
the aggregate is r1 alone rather than the in order concatenation of both
chunks. -/
theorem batch_aggregate_keeps_first_chunk_only :
    (batchRun "43.0" c4transport (List.replicate 26 (SubReq.bare "p"))
        { requests := 0, requestErrors := 0 }).chunksPosted.length = 2 ∧
    (batchRun "43.0" c4transport (List.replicate 26 (SubReq.bare "p"))
        { requests := 0, requestErrors := 0 }).result
      = Except.ok (some { results := ["r1"] }) ∧
    (batchRun "43.0" c4transport (List.replicate 26 (SubReq.bare "p"))
        { requests := 0, requestErrors := 0 }).result
      ≠ Except.ok (some { results := ["r1", "r2"] }) := by
  refine ⟨by decide, by decide, by decide⟩

/-- C5 counterexample: with a transport failing on 4 consecutive attempts the
executor does make exactly 4 attempts and throw, and the invoking query leaves
its records field falsy; but the thrown message carries only the uppercased
method, not the action — the action string of the triggering query does not
occur in the message, refuting the claim that the error carries both. -/
theorem request_failure_message_lacks_action :
    (requestGo (fun _ => (none : Option (QueryPage String))) "get" 3 0
        { requests := 0, requestErrors := 0 }).attempts = 4 ∧
    (requestGo (fun _ => (none : Option (QueryPage String))) "get" 3 0
        { requests := 0, requestErrors := 0 }).result
      = Except.error (JsErr.thrown "Salesforce GET request failed!") ∧
    occursIn "query?q=SELECT%20Id%20FROM%20Contact".data
      "Salesforce GET request failed!".data = false := by
  refine ⟨by decide, by decide, by decide⟩

/-- C5 (amended): for every starting counter state, a transport that fails on
4 consecutive attempts makes the executor perform exactly 4 attempts — one
initial plus 3 retries — and surface a thrown failure whose message names the
uppercased HTTP method (but not the action), and the invoking query leaves its
last result field as the falsy sentinel false. -/
theorem request_exhaustion_behavior (st : Counters) :
    (requestGo (fun _ => (none : Option (QueryPage String))) "get" 3 0 st).attempts = 4 ∧
    (requestGo (fun _ => (none : Option (QueryPage String))) "get" 3 0 st).result
      = Except.error (JsErr.thrown "Salesforce GET request failed!") ∧
    occursIn "GET".data "Salesforce GET request failed!".data = true ∧
    (queryRun testSession (fun _ _ => (none : Option (QueryPage String)))
        "SELECT Id FROM Contact" { requests := 0, requestErrors := 0 }).records
      = JsField.fls := by
  refine ⟨by simp [requestGo], ?_, by decide, by decide⟩
  simp [requestGo]
  decide

/-- C8 counterexample: construction from a URL with no hash fragment does not
silently produce a session with an empty credential set; it throws a
TypeError, because the index 1 piece of the hash split is undefined and split
is then called on it. -/
theorem construct_no_fragment_throws_cx :
    constructSession "https://example.com/callback".data
        { overrideInstanceUrl := none, overrideServicesPath := none,
          overrideVersion := none }
      = Except.error (JsErr.typeError
          "Cannot read properties of undefined (reading split)") ∧
    (constructSession "https://example.com/callback".data
        { overrideInstanceUrl := none, overrideServicesPath := none,
          overrideVersion := none }).isOk = false := by
  constructor <;> decide

/-- A character list without the separator splits into one piece, the whole
list: the shape String.prototype.split produces when the separator is absent. -/
theorem splitOnChar_eq_single (c : Char) (l : List Char) (h : c ∉ l) :
    splitOnChar c l = [l] := by
  induction l with
  | nil => rfl
  | cons x xs ih =>
    have hx : ¬ x = c := fun hxc => h (by simp [hxc])
    have hxs : c ∉ xs := fun hc => h (List.mem_cons_of_mem _ hc)
    simp only [splitOnChar, if_neg hx, ih hxs]

/-- C8 (amended): for every construction input URL containing no hash
character and any options, session construction throws a TypeError — split is
called on the undefined index 1 piece of the hash split — rather than
returning silently with an empty credential set; subsequent requests never
happen because no session object is produced at all. -/
theorem construct_without_fragment_throws (u : List Char) (opts : SessionOptions)
    (h : '#' ∉ u) :
    constructSession u opts
      = Except.error (JsErr.typeError
          "Cannot read properties of undefined (reading split)") := by
  unfold constructSession
  rw [splitOnChar_eq_single '#' u h]

/-- C8 witness: the amended theorem at a concrete fragment free URL. -/
theorem construct_without_fragment_throws_witness :
    '#' ∉ "https://app.example/landing".data ∧
    constructSession "https://app.example/landing".data
        { overrideInstanceUrl := none, overrideServicesPath := none,
          overrideVersion := none }
      = Except.error (JsErr.typeError
          "Cannot read properties of undefined (reading split)") :=
  ⟨by decide, construct_without_fragment_throws _ _ (by decide)⟩

/-- C9: evaluation of the code at the failing input, and the general fact.
Construction with the services base path option /custom/ and a fragment
bearing redirect URL does not yield a session whose builder returns the
claimed URL: line 29 throws a ReferenceError, because the file is strict mode
and the assignment target _OAuthVarPairs is declared nowhere. In general
construction never succeeds for any input URL and options — a fragment free
URL throws a TypeError instead — so no URL is ever built from a constructed
session. (Separately, had line 29 been declared, the var redeclaration with
initializer at line 18 would still have overwritten the /custom/ option with
/services/data/ before the throw.) -/
theorem construction_never_yields_session :
    constructSession "https://cb.example/#access_token=T".data
        { overrideInstanceUrl := none, overrideServicesPath := some "/custom/",
          overrideVersion := none }
      = Except.error (JsErr.referenceError "_OAuthVarPairs is not defined") ∧
    (∀ (u : List Char) (opts : SessionOptions), (constructSession u opts).isOk = false) := by
  refine ⟨by decide, ?_⟩
  intro u opts
  unfold constructSession
  cases hsplit : splitOnChar '#' u with
  | nil => rfl
  | cons a t =>
    cases t with
    | nil => rfl
    | cons b l => rfl

/-- When every chunk POST succeeds on its first attempt, the chunk loop of
batch leaves the counters unchanged — the executor increment of each chunk
call is compensated by the decrement at line 218 — consumes the whole caller
array, posts chunks that concatenate back to the array it started from, and
returns a successful aggregate. -/
theorem batchLoopF_success {RES : Type}
    (ct : List SubReq → Nat → Option (BatchResp RES))
    (hct : ∀ c, (ct c 0).isSome = true) :
    ∀ fuel l acc st, l.length ≤ fuel →
      (batchLoopF ct fuel l acc st).counters = st ∧
      (batchLoopF ct fuel l acc st).remainder = [] ∧
      (batchLoopF ct fuel l acc st).chunksPosted.flatten = l ∧
      ∃ a, (batchLoopF ct fuel l acc st).result = Except.ok a := by
  intro fuel
  induction fuel with
  | zero =>
    intro l acc st hl
    match l with
    | [] => exact ⟨rfl, rfl, rfl, acc, rfl⟩
    | r :: rs => simp at hl
  | succ n ih =>
    intro l acc st hl
    match l with
    | [] => exact ⟨rfl, rfl, rfl, acc, rfl⟩
    | r :: rs =>
      obtain ⟨resp, hresp⟩ := Option.isSome_iff_exists.mp (hct ((r :: rs).take 25))
      have hreq : requestGo (ct ((r :: rs).take 25)) "post" 3 0 st
          = { counters := { st with requests := st.requests + 1 }, attempts := 1,
              result := Except.ok resp } := by
        unfold requestGo
        rw [hresp]
      have hlen2 : ((r :: rs).drop 25).length ≤ n := by
        simp only [List.length_drop, List.length_cons]
        simp only [List.length_cons] at hl
        omega
      obtain ⟨ih1, ih2, ih3, a, ih4⟩ := ih ((r :: rs).drop 25)
        (match acc with | none => some resp | some a => some a)
        { requests := st.requests + 1 - 1, requestErrors := st.requestErrors } hlen2
      simp only [batchLoopF, hreq]
      refine ⟨?_, ?_, ?_, a, ?_⟩
      · exact ih1
      · exact ih2
      · simp only [List.flatten_cons, ih3, List.take_append_drop]
      · exact ih4

/-- C6: for every nonempty batch submission whose chunk POSTs succeed on their
first attempt, the whole multi chunk call increments the session total request
counter by exactly one: the executor increment of each chunk call is
compensated by the decrement at line 218, and the single increment at line 226
accounts the whole batch as one logical request, regardless of the number of
chunks. -/
theorem batch_counter_net_one {RES : Type} (version : String)
    (ct : List SubReq → Nat → Option (BatchResp RES))
    (hct : ∀ c, (ct c 0).isSome = true) (r : SubReq) (rs : List SubReq)
    (st : Counters) :
    (batchRun version ct (r :: rs) st).counters.requests = st.requests + 1 ∧
    ∃ a, (batchRun version ct (r :: rs) st).result = Except.ok a := by
  obtain ⟨h1, h2, h3, a, h4⟩ := batchLoopF_success ct hct
    (if r.methodFalsy then (r :: rs).map (rewriteEntry version) else r :: rs).length
    (if r.methodFalsy then (r :: rs).map (rewriteEntry version) else r :: rs)
    none st le_rfl
  simp only [batchRun, batchLoop]
  rw [h4]
  refine ⟨?_, a, rfl⟩
  simp only [h1]

/-- C6 witness: a batch of 26 bare paths over an always succeeding transport
raises the request counter from 0 to exactly 1. -/
theorem batch_counter_net_one_witness :
    (∀ c : List SubReq,
      ((fun (_ : List SubReq) (_ : Nat) => some ({ results := [] } : BatchResp Unit)) c 0).isSome
        = true) ∧
    (batchRun "43.0" (fun _ _ => some ({ results := [] } : BatchResp Unit))
        (List.replicate 26 (SubReq.bare "p"))
        { requests := 0, requestErrors := 0 }).counters.requests
      = ({ requests := 0, requestErrors := 0 } : Counters).requests + 1 :=
  ⟨fun _ => rfl,
   (batch_counter_net_one "43.0" (fun _ _ => some { results := [] }) (fun _ => rfl)
      (SubReq.bare "p") (List.replicate 25 (SubReq.bare "p"))
      { requests := 0, requestErrors := 0 }).1⟩

/-- C7 counterexample: insert of an empty array fails before any network call,
but with a TypeError — the validation itself reads attributes of the undefined
first element — and not with the claimed invalid records Error of line 239. -/
theorem insert_empty_array_typeerror :
    (insertRun (JsVal.arr [])).callsPosted = [] ∧
    (insertRun (JsVal.arr [])).result
      = Except.error (JsErr.typeError
          "Cannot read properties of undefined (reading attributes)") ∧
    (insertRun (JsVal.arr [])).result
      ≠ Except.error (JsErr.errorObj "No valid records to insert!") := by
  refine ⟨rfl, rfl, ?_⟩
  intro h
  exact JsErr.noConfusion (Except.error.inj h)

/-- The validation throws a TypeError only for an array whose first element is
null or undefined (in particular the empty array, whose first element is
undefined); every other rejected input produces the invalid records failure. -/
theorem validateCore_propError_shape (v : JsVal) (m : String)
    (hv : validateCore v = Except.error (ValErr.propError m)) :
    ∃ l, v = JsVal.arr l ∧
      (l.headD JsVal.undef = JsVal.null ∨ l.headD JsVal.undef = JsVal.undef) := by
  cases v with
  | null => simp [validateCore, jsTruthy] at hv
  | undef => simp [validateCore, jsTruthy] at hv
  | boolV b => cases b <;> simp [validateCore, jsTruthy, getProp] at hv
  | strV s =>
    rcases Decidable.em (s = "") with hs | hs <;>
      simp [validateCore, jsTruthy, getProp, hs] at hv
  | obj fields =>
    exfalso
    rcases hA : (fields.lookup "attributes").getD JsVal.undef with _ | _ | bA | sA | fA | lA
    · simp [validateCore, jsTruthy, getProp, hA] at hv
    · simp [validateCore, jsTruthy, getProp, hA] at hv
    · cases bA <;> simp [validateCore, jsTruthy, getProp, hA] at hv
    · rcases Decidable.em (sA = "") with hs | hs <;>
        simp [validateCore, jsTruthy, getProp, hA, hs] at hv
    · rcases hT : (fA.lookup "type").getD JsVal.undef with _ | _ | bT | sT | fT | lT
      · simp [validateCore, jsTruthy, getProp, hA, hT] at hv
      · simp [validateCore, jsTruthy, getProp, hA, hT] at hv
      · cases bT <;> simp [validateCore, jsTruthy, getProp, hA, hT] at hv
      · rcases Decidable.em (sT = "") with hs | hs <;>
          simp [validateCore, jsTruthy, getProp, hA, hT, hs] at hv
      · simp [validateCore, jsTruthy, getProp, hA, hT] at hv
      · simp [validateCore, jsTruthy, getProp, hA, hT] at hv
    · simp [validateCore, jsTruthy, getProp, hA] at hv
  | arr l =>
    refine ⟨l, rfl, ?_⟩
    cases l with
    | nil => exact Or.inr rfl
    | cons x xs =>
      cases x with
      | null => exact Or.inl rfl
      | undef => exact Or.inr rfl
      | boolV b =>
        exfalso; cases b <;> simp [validateCore, jsTruthy, getProp] at hv
      | strV s =>
        exfalso
        rcases Decidable.em (s = "") with hs | hs <;>
          simp [validateCore, jsTruthy, getProp, hs] at hv
      | obj f =>
        exfalso
        rcases hA : (f.lookup "attributes").getD JsVal.undef with _ | _ | bA | sA | fA | lA
        · simp [validateCore, jsTruthy, getProp, hA] at hv
        · simp [validateCore, jsTruthy, getProp, hA] at hv
        · cases bA <;> simp [validateCore, jsTruthy, getProp, hA] at hv
        · rcases Decidable.em (sA = "") with hs | hs <;>
            simp [validateCore, jsTruthy, getProp, hA, hs] at hv
        · rcases hT : (fA.lookup "type").getD JsVal.undef with _ | _ | bT | sT | fT | lT
          · simp [validateCore, jsTruthy, getProp, hA, hT] at hv
          · simp [validateCore, jsTruthy, getProp, hA, hT] at hv
          · cases bT <;> simp [validateCore, jsTruthy, getProp, hA, hT] at hv
          · rcases Decidable.em (sT = "") with hs | hs <;>
              simp [validateCore, jsTruthy, getProp, hA, hT, hs] at hv
          · simp [validateCore, jsTruthy, getProp, hA, hT] at hv
          · simp [validateCore, jsTruthy, getProp, hA, hT] at hv
        · simp [validateCore, jsTruthy, getProp, hA] at hv
      | arr l2 =>
        exfalso; simp [validateCore, jsTruthy, getProp] at hv

/-- C7 (amended): every input the shared validation rejects makes insert and
update fail before any network call — zero POSTs are issued; the failure is
the operation specific invalid records Error for every such input except an
array whose first element is null or undefined (in particular the empty
array), for which the validation itself throws a TypeError, still before any
network call. In particular insert of null fails with the invalid records
Error and the transport is never invoked. -/
theorem invalid_inputs_rejected_before_network (v : JsVal)
    (tr : List JsVal → Nat → Option (List JsVal)) (st : Counters) (e : ValErr)
    (hv : validateCore v = Except.error e) :
    (insertRun v).callsPosted = [] ∧
    (updateRun tr v st).callsPosted = [] ∧
    (insertRun v).result = Except.error (valErrToJs "No valid records to insert!" e) ∧
    (updateRun tr v st).result = Except.error (valErrToJs "No valid records to update!" e) ∧
    (e = ValErr.invalid ∨
      ∃ l, v = JsVal.arr l ∧
        (l.headD JsVal.undef = JsVal.null ∨ l.headD JsVal.undef = JsVal.undef)) := by
  refine ⟨?_, ?_, ?_, ?_, ?_⟩
  · simp [insertRun, hv]
  · simp [updateRun, hv]
  · simp [insertRun, hv]
  · simp [updateRun, hv]
  · cases e with
    | invalid => exact Or.inl rfl
    | propError m => exact Or.inr (validateCore_propError_shape v m hv)

/-- C7 witness: the amended theorem at the null input, which is rejected with
the invalid records Error and zero POSTs. -/
theorem invalid_inputs_rejected_before_network_witness :
    validateCore JsVal.null = Except.error ValErr.invalid ∧
    (insertRun JsVal.null).callsPosted = [] ∧
    (insertRun JsVal.null).result
      = Except.error (JsErr.errorObj "No valid records to insert!") :=
  ⟨rfl,
   (invalid_inputs_rejected_before_network JsVal.null (fun _ _ => none)
      { requests := 0, requestErrors := 0 } ValErr.invalid rfl).1,
   (invalid_inputs_rejected_before_network JsVal.null (fun _ _ => none)
      { requests := 0, requestErrors := 0 } ValErr.invalid rfl).2.2.1⟩

/-- When every chunk POST succeeds on its first attempt the update loop
consumes the whole caller array. -/
theorem updateLoopF_success_remainder (tr : List JsVal → Nat → Option (List JsVal))
    (htr : ∀ c, (tr c 0).isSome = true) (ty : String) :
    ∀ fuel l acc st, l.length ≤ fuel → (updateLoopF tr ty fuel l acc st).remainder = [] := by
  intro fuel
  induction fuel with
  | zero =>
    intro l acc st hl
    match l with
    | [] => rfl
    | r :: rs => simp at hl
  | succ n ih =>
    intro l acc st hl
    match l with
    | [] => rfl
    | r :: rs =>
      obtain ⟨resp, hresp⟩ := Option.isSome_iff_exists.mp (htr ((r :: rs).take 200))
      have hreq : requestGo (tr ((r :: rs).take 200)) "post" 3 0 st
          = { counters := { st with requests := st.requests + 1 }, attempts := 1,
              result := Except.ok resp } := by
        unfold requestGo
        rw [hresp]
      have hlen2 : ((r :: rs).drop 200).length ≤ n := by
        simp only [List.length_drop, List.length_cons]
        simp only [List.length_cons] at hl
        omega
      simp only [updateLoopF, hreq]
      exact ih _ _ _ hlen2

/-- The insert loop always consumes the whole caller array: since the chunk
POST outcome is never awaited, nothing can interrupt the splicing. -/
theorem insertLoopF_remainder :
    ∀ fuel l, l.length ≤ fuel → (insertLoopF fuel l).remainder = [] := by
  intro fuel
  induction fuel with
  | zero =>
    intro l hl
    match l with
    | [] => rfl
    | r :: rs => simp at hl
  | succ n ih =>
    intro l hl
    match l with
    | [] => rfl
    | r :: rs =>
      have hlen2 : ((r :: rs).drop 200).length ≤ n := by
        simp only [List.length_drop, List.length_cons]
        simp only [List.length_cons] at hl
        omega
      simp only [insertLoopF]
      exact ih _ hlen2

/-- C10 counterexample: a batch call of 26 sub-requests whose chunk POSTs all
fail throws after the first chunk with the 26th entry — already rewritten in
place — still in the caller array: the caller array is not empty after the
failed call. -/
theorem batch_failure_leaves_remainder :
    (batchRun "43.0" (fun _ _ => (none : Option (BatchResp Unit)))
        (List.replicate 26 (SubReq.bare "p"))
        { requests := 0, requestErrors := 0 }).remainder
      = [SubReq.withMethod "GET" "v43.0/p"] ∧
    (batchRun "43.0" (fun _ _ => (none : Option (BatchResp Unit)))
        (List.replicate 26 (SubReq.bare "p"))
        { requests := 0, requestErrors := 0 }).remainder ≠ [] ∧
    (batchRun "43.0" (fun _ _ => (none : Option (BatchResp Unit)))
        (List.replicate 26 (SubReq.bare "p"))
        { requests := 0, requestErrors := 0 }).result
      = Except.error (JsErr.thrown "Salesforce batch request failed!") := by
  refine ⟨by decide, by decide, by decide⟩

/-- C10 (amended): the three array operations do destructively consume the
caller array in place by splicing from its front, and batch rewrites bare path
entries of the caller array in place before submission; but the array is left
empty only when the operation succeeds — a batch or update chunk failure
leaves the not yet spliced remainder in the array. For a nonempty batch whose
chunk POSTs succeed on first attempt the array empties and the POSTed chunks
concatenate to the in place rewritten array; for a validated update input over
such a transport the array empties; for a validated insert input the array
always empties, because the unawaited chunk POSTs of insert can never
interrupt its loop. -/
theorem caller_arrays_spliced_empty {RES : Type} (version : String)
    (ct : List SubReq → Nat → Option (BatchResp RES))
    (hct : ∀ c, (ct c 0).isSome = true) (r : SubReq) (rs : List SubReq)
    (st st2 : Counters) (tr : List JsVal → Nat → Option (List JsVal))
    (htr : ∀ c, (tr c 0).isSome = true) (v : JsVal) (elems : List JsVal)
    (t : JsVal) (hv : validateCore v = Except.ok (elems, t)) :
    (batchRun version ct (r :: rs) st).remainder = [] ∧
    (r.methodFalsy = true →
      (batchRun version ct (r :: rs) st).chunksPosted.flatten
        = (r :: rs).map (rewriteEntry version)) ∧
    (updateRun tr v st2).remainder = [] ∧
    (insertRun v).remainder = [] := by
  obtain ⟨h1, h2, h3, a, h4⟩ := batchLoopF_success ct hct
    (if r.methodFalsy then (r :: rs).map (rewriteEntry version) else r :: rs).length
    (if r.methodFalsy then (r :: rs).map (rewriteEntry version) else r :: rs)
    none st le_rfl
  refine ⟨?_, ?_, ?_, ?_⟩
  · simp only [batchRun, batchLoop]
    rw [h4]
    exact h2
  · intro hm
    simp only [batchRun, batchLoop]
    rw [h4]
    simpa [hm] using h3
  · simp only [updateRun, hv]
    exact updateLoopF_success_remainder tr htr _ _ _ _ _ le_rfl
  · simp only [insertRun, hv]
    exact insertLoopF_remainder _ _ le_rfl

/-- C10 witness: the amended theorem at a 26 entry batch, a 201 record update
and a 201 record insert over first attempt successful transports. -/
theorem caller_arrays_spliced_empty_witness :
    validateCore (JsVal.arr (List.replicate 201 (mkRecord "Contact")))
      = Except.ok (List.replicate 201 (mkRecord "Contact"), JsVal.strV "Contact") ∧
    (batchRun "43.0" (fun _ _ => some ({ results := [] } : BatchResp Unit))
        (List.replicate 26 (SubReq.bare "p"))
        { requests := 0, requestErrors := 0 }).remainder = [] ∧
    (updateRun (fun _ _ => some [])
        (JsVal.arr (List.replicate 201 (mkRecord "Contact")))
        { requests := 0, requestErrors := 0 }).remainder = [] ∧
    (insertRun (JsVal.arr (List.replicate 201 (mkRecord "Contact")))).remainder = [] := by
  have h := caller_arrays_spliced_empty "43.0"
    (fun _ _ => some ({ results := [] } : BatchResp Unit)) (fun _ => rfl)
    (SubReq.bare "p") (List.replicate 25 (SubReq.bare "p"))
    { requests := 0, requestErrors := 0 } { requests := 0, requestErrors := 0 }
    (fun _ _ => some []) (fun _ => rfl)
    (JsVal.arr (List.replicate 201 (mkRecord "Contact")))
    (List.replicate 201 (mkRecord "Contact")) (JsVal.strV "Contact") rfl
  exact ⟨rfl, h.1, h.2.2.1, h.2.2.2⟩

end FetchSalesforce
